import Mathlib

/-!
Verification development for the vibe-kanban multi-agent log-normalization
pipeline and its frontend actor badge.

The repository sources under study are the frontend components
(ChatActorBadge.tsx) and the engineering design document for the Codex
multi-agent integration.  The normalization pipeline itself (Event
Classifier, Actor Registry, Active-Actor Tracker, Configuration Gate) is
specified in spec.md but its implementation is not among the given source
files, so those components are modelled from the spec below; the frontend
badge component is embedded directly from its TypeScript source.
-/

namespace VibeKanban

/-- Modelled from the spec: the closed actor-kind variant set of the
normalization pipeline (spec section 3, ActorInfo.kind, enum main | collab).
The pipeline implementation is not among the given sources. -/
inductive ActorKind
  | main
  | collab
deriving DecidableEq, Repr

/-- Modelled from the spec: ActorInfo, identity of a participant
(spec section 3): opaque id, optional human labels name and role, and a kind.
The pipeline implementation is not among the given sources. -/
structure ActorInfo where
  id : String
  name : Option String
  role : Option String
  kind : ActorKind
deriving DecidableEq, Repr

/-- Modelled from the spec: the discriminated entry kinds of a
NormalizedEntry (spec section 3: assistant message, reasoning, tool call,
system message). -/
inductive EntryType
  | assistantMessage
  | reasoning
  | toolCall
  | systemMessage
deriving DecidableEq, Repr

/-- Modelled from the spec: NormalizedEntry, one unit of conversation or
tool output (spec section 3): entry type, sequence number assigned at
emission, payload content, and an optional actor attribution. -/
structure NormalizedEntry where
  entryType : EntryType
  sequence : Nat
  content : String
  actor : Option ActorInfo
deriving DecidableEq, Repr

/-- Modelled from the spec: the raw runtime events consumed by the Event
Classifier (spec section 4.4 dispatch table): collab lifecycle events
(SpawnBegin, SpawnEnd, InteractionBegin, InteractionEnd), payload events
(AgentMessage, AgentReasoning, tool calls) optionally stamped with an
explicit actor id, and malformed events (unparseable payload or unknown
kind). -/
inductive RawEvent
  | spawnBegin (id : String) (name role : Option String)
  | spawnEnd (id : String) (name role : Option String)
  | interactionBegin (id : String)
  | interactionEnd (id : String)
  | agentMessage (actorId : Option String) (content : String)
  | agentReasoning (actorId : Option String) (content : String)
  | toolCall (actorId : Option String) (content : String)
  | malformed (raw : String)
deriving DecidableEq, Repr

/-- Modelled from the spec: field-wise merge of one optional metadata field
(spec section 4.2): a later non-null field overwrites, a later null field
never erases an earlier non-null one. -/
def mergeField (old new : Option String) : Option String :=
  match new with
  | some v => some v
  | none => old

/-- Modelled from the spec: field-wise merge of actor metadata used by
registry registration (spec section 4.2). -/
def mergeInfo (old new : ActorInfo) : ActorInfo :=
  { id := old.id
    name := mergeField old.name new.name
    role := mergeField old.role new.role
    kind := old.kind }

/-- Modelled from the spec: Actor Registry lookup (spec section 4.2),
searching the insertion-ordered registry for the record with the given id. -/
def lookupReg (reg : List ActorInfo) (id : String) : Option ActorInfo :=
  reg.find? (fun a => a.id == id)

/-- Modelled from the spec: Actor Registry registration (spec section 4.2):
inserts a new record in insertion order, or merges metadata field-wise into
the existing record with the same id; never removes entries. -/
def register (reg : List ActorInfo) (info : ActorInfo) : List ActorInfo :=
  match reg with
  | [] => [info]
  | a :: rest =>
    if a.id == info.id then mergeInfo a info :: rest
    else a :: register rest info

/-- Number of registry records carrying a given id. -/
def countReg (reg : List ActorInfo) (id : String) : Nat :=
  (reg.filter (fun a => a.id == id)).length

theorem mergeField_none_left (x : Option String) : mergeField none x = x := by
  cases x <;> rfl

theorem mergeInfo_id (old new : ActorInfo) : (mergeInfo old new).id = old.id := rfl

theorem lookupReg_register_found (reg : List ActorInfo) (info old : ActorInfo)
    (h : lookupReg reg info.id = some old) :
    lookupReg (register reg info) info.id = some (mergeInfo old info) := by
  induction reg with
  | nil => simp [lookupReg] at h
  | cons a rest ih =>
    by_cases hid : a.id == info.id
    · simp only [lookupReg, List.find?] at h
      rw [hid] at h
      simp only [Option.some.injEq] at h
      subst h
      simp [register, hid, lookupReg, List.find?, mergeInfo_id]
    · simp only [lookupReg, List.find?] at h
      rw [Bool.of_not_eq_true hid] at h
      simp only [register, hid, if_false]
      simpa [lookupReg, List.find?, Bool.of_not_eq_true hid] using ih h

theorem lookupReg_register_none (reg : List ActorInfo) (info : ActorInfo)
    (h : lookupReg reg info.id = none) :
    lookupReg (register reg info) info.id = some info := by
  induction reg with
  | nil => simp [register, lookupReg, List.find?]
  | cons a rest ih =>
    by_cases hid : a.id == info.id
    · simp only [lookupReg, List.find?] at h
      rw [hid] at h
      simp at h
    · simp only [lookupReg, List.find?] at h
      rw [Bool.of_not_eq_true hid] at h
      simp only [register, hid, if_false]
      simpa [lookupReg, List.find?, Bool.of_not_eq_true hid] using ih h

theorem countReg_register_found (reg : List ActorInfo) (info old : ActorInfo)
    (h : lookupReg reg info.id = some old) :
    countReg (register reg info) info.id = countReg reg info.id := by
  induction reg with
  | nil => simp [lookupReg] at h
  | cons a rest ih =>
    by_cases hid : a.id == info.id
    · simp [register, hid, countReg, List.filter, mergeInfo_id]
    · simp only [lookupReg, List.find?] at h
      rw [Bool.of_not_eq_true hid] at h
      have := ih h
      simp only [register, hid, if_false]
      simpa [countReg, List.filter, Bool.of_not_eq_true hid] using this

theorem countReg_register_none (reg : List ActorInfo) (info : ActorInfo)
    (h : lookupReg reg info.id = none) :
    countReg (register reg info) info.id = countReg reg info.id + 1 := by
  induction reg with
  | nil => simp [register, countReg, List.filter]
  | cons a rest ih =>
    by_cases hid : a.id == info.id
    · simp only [lookupReg, List.find?] at h
      rw [hid] at h
      simp at h
    · simp only [lookupReg, List.find?] at h
      rw [Bool.of_not_eq_true hid] at h
      have := ih h
      simp only [register, hid, if_false]
      simpa [countReg, List.filter, Bool.of_not_eq_true hid] using this

theorem lookupReg_register_mono (reg : List ActorInfo) (info : ActorInfo)
    (j : String) (h : (lookupReg reg j).isSome) :
    (lookupReg (register reg info) j).isSome := by
  induction reg with
  | nil => simp [lookupReg] at h
  | cons a rest ih =>
    by_cases hid : a.id == info.id
    · simp only [register, hid, if_true]
      by_cases hj : a.id == j
      · simp [lookupReg, List.find?, mergeInfo_id, hj]
      · simp only [lookupReg, List.find?] at h ⊢
        rw [Bool.of_not_eq_true hj] at h
        rw [mergeInfo_id, Bool.of_not_eq_true hj]
        exact h
    · simp only [register, hid, if_false]
      by_cases hj : a.id == j
      · simp [lookupReg, List.find?, hj]
      · simp only [lookupReg, List.find?] at h ⊢
        rw [Bool.of_not_eq_true hj] at h ⊢
        exact ih h

/-- Modelled from the spec: per-session Event Classifier state
(spec sections 4.3, 4.4, 9): the session's main actor id, the Actor
Registry in insertion order, the Active-Actor Tracker stack (top at the
head, main actor at the bottom), and the emission sequence counter. -/
structure ClassifierState where
  mainId : String
  registry : List ActorInfo
  stack : List String
  counter : Nat
deriving DecidableEq, Repr

/-- Modelled from the spec: fresh per-session classifier state (spec
section 4.3: the main actor is pushed at session start and sits at the
bottom of the tracker stack; the sequence counter starts the session). -/
def initState (m : String) : ClassifierState :=
  { mainId := m
    registry := [{ id := m, name := none, role := none, kind := .main }]
    stack := [m]
    counter := 0 }

/-- Result of classifying one raw event: the successor state, the emitted
normalized entries in order, and the number of error-counter and
warning-counter increments. -/
structure StepOut where
  state : ClassifierState
  entries : List NormalizedEntry
  errors : Nat
  warnings : Nat
deriving DecidableEq, Repr

/-- Human label for an actor in spawn narration: the optional name,
falling back to the id. -/
def displayName (name : Option String) (id : String) : String :=
  name.getD id

/-- Payload extraction: the entry kind, optional explicit actor id and
content of a message-bearing event, none for lifecycle or malformed
events. -/
def payload? (e : RawEvent) : Option (EntryType × Option String × String) :=
  match e with
  | .agentMessage a c => some (.assistantMessage, a, c)
  | .agentReasoning a c => some (.reasoning, a, c)
  | .toolCall a c => some (.toolCall, a, c)
  | _ => none

/-- Whether an event is collab-specific (spawn or interaction lifecycle). -/
def isCollabEvent (e : RawEvent) : Bool :=
  match e with
  | .spawnBegin _ _ _ => true
  | .spawnEnd _ _ _ => true
  | .interactionBegin _ => true
  | .interactionEnd _ => true
  | _ => false

/-- Whether an event is an Active-Actor Tracker transition. -/
def isInteractionEvent (e : RawEvent) : Bool :=
  match e with
  | .interactionBegin _ => true
  | .interactionEnd _ => true
  | _ => false

/-- Modelled from the spec: a synthesized minimal placeholder actor for an
id that is referenced before registration (spec section 4.4: ActorInfo
with that id and kind collab). -/
def placeholder (id : String) : ActorInfo :=
  { id := id, name := none, role := none, kind := .collab }

/-- Modelled from the spec: attribution id resolution (spec section 4.4):
an explicit actor id carried on the event wins over the tracker; otherwise
the tracker's current top; otherwise a synthetic unknown actor with a
classifier-level warning. -/
def resolveId (s : ClassifierState) (actorId : Option String) : String × Nat :=
  match actorId with
  | some y => (y, 0)
  | none =>
    match s.stack with
    | t :: _ => (t, 0)
    | [] => ("unknown", 1)

/-- Modelled from the spec: attribution resolution (spec section 4.4):
look the resolved id up in the registry; if it is not yet registered,
synthesize a placeholder, register it and record a warning. -/
def resolveActor (s : ClassifierState) (actorId : Option String) :
    ActorInfo × ClassifierState × Nat :=
  match lookupReg s.registry (resolveId s actorId).1 with
  | some info => (info, s, (resolveId s actorId).2)
  | none =>
    (placeholder (resolveId s actorId).1,
     { s with registry := register s.registry (placeholder (resolveId s actorId).1) },
     (resolveId s actorId).2 + 1)

/-- Modelled from the spec: handling of SpawnBegin and SpawnEnd when
multi-agent mode is active (spec section 4.4): register or merge-update
the actor with kind collab and emit a system-message narration entry
attributed to the main actor. -/
def spawnStep (s : ClassifierState) (id : String) (name role : Option String)
    (verb : String) : StepOut :=
  let reg := register s.registry { id := id, name := name, role := role, kind := .collab }
  { state := { s with registry := reg, counter := s.counter + 1 }
    entries := [{ entryType := .systemMessage, sequence := s.counter
                  content := "agent " ++ displayName name id ++ " " ++ verb
                  actor := lookupReg reg s.mainId }]
    errors := 0
    warnings := 0 }

/-- Modelled from the spec: handling of InteractionEnd when multi-agent
mode is active (spec section 4.3): pop only when the top matches the id and
the main actor would remain on the stack; on a mismatch or at the stack
floor pop nothing and record a non-fatal inconsistency warning. -/
def endStep (s : ClassifierState) (id : String) : StepOut :=
  match s.stack with
  | t :: r :: rest =>
    if t = id then { state := { s with stack := r :: rest }, entries := [], errors := 0, warnings := 0 }
    else { state := s, entries := [], errors := 0, warnings := 1 }
  | _ => { state := s, entries := [], errors := 0, warnings := 1 }

/-- Modelled from the spec: emission of a message-bearing event (spec
sections 4.1, 4.4): when multi-agent mode is active the entry carries the
resolved actor; when it is inactive all actor decoration is suppressed. -/
def emitMessage (cfg : Bool) (s : ClassifierState) (t : EntryType)
    (aid : Option String) (c : String) : StepOut :=
  if cfg then
    { state := { (resolveActor s aid).2.1 with counter := (resolveActor s aid).2.1.counter + 1 }
      entries := [{ entryType := t, sequence := (resolveActor s aid).2.1.counter
                    content := c, actor := some (resolveActor s aid).1 }]
      errors := 0
      warnings := (resolveActor s aid).2.2 }
  else
    { state := { s with counter := s.counter + 1 }
      entries := [{ entryType := t, sequence := s.counter, content := c, actor := none }]
      errors := 0
      warnings := 0 }

/-- Modelled from the spec: the Event Classifier dispatch (spec section
4.4) guarded by the Configuration Gate (spec section 4.1): when cfg is
false, collab lifecycle events are ignored as no-ops and message entries
carry no actor decoration; malformed events are dropped with an error
counter increment and never abort processing. -/
def classifyEvent (cfg : Bool) (s : ClassifierState) (e : RawEvent) : StepOut :=
  match e with
  | .malformed _ => { state := s, entries := [], errors := 1, warnings := 0 }
  | .spawnBegin id name role =>
    if cfg then spawnStep s id name role "started"
    else { state := s, entries := [], errors := 0, warnings := 0 }
  | .spawnEnd id name role =>
    if cfg then spawnStep s id name role "finished"
    else { state := s, entries := [], errors := 0, warnings := 0 }
  | .interactionBegin id =>
    if cfg then { state := { s with stack := id :: s.stack }, entries := [], errors := 0, warnings := 0 }
    else { state := s, entries := [], errors := 0, warnings := 0 }
  | .interactionEnd id =>
    if cfg then endStep s id
    else { state := s, entries := [], errors := 0, warnings := 0 }
  | .agentMessage a c => emitMessage cfg s .assistantMessage a c
  | .agentReasoning a c => emitMessage cfg s .reasoning a c
  | .toolCall a c => emitMessage cfg s .toolCall a c

/-- Modelled from the spec: running the Event Classifier over an
arrival-ordered event sequence, concatenating the emitted entries in
production order and accumulating error and warning counters. -/
def runClassifier (cfg : Bool) : ClassifierState → List RawEvent → StepOut
  | s, [] => { state := s, entries := [], errors := 0, warnings := 0 }
  | s, e :: es =>
    let o := classifyEvent cfg s e
    let r := runClassifier cfg o.state es
    { state := r.state, entries := o.entries ++ r.entries
      errors := o.errors + r.errors, warnings := o.warnings + r.warnings }

/-- Modelled from the spec: state of the baseline single-actor normalizer
with collab support entirely absent (spec sections 4.1, 8): only the
emission sequence counter. -/
structure BaselineState where
  counter : Nat
deriving DecidableEq, Repr

/-- Modelled from the spec: one step of the baseline single-actor
normalizer with collab support entirely absent (spec sections 4.1, 8):
message-bearing events are emitted without actor decoration; anything
else (malformed payloads and event kinds unknown to it, which include all
collab lifecycle events) is dropped with an error counter increment. -/
def baselineStep (b : BaselineState) (e : RawEvent) :
    BaselineState × List NormalizedEntry × Nat :=
  match payload? e with
  | some (t, _, c) =>
    ({ counter := b.counter + 1 },
     [{ entryType := t, sequence := b.counter, content := c, actor := none }], 0)
  | none => (b, [], 1)

/-- Modelled from the spec: running the baseline single-actor normalizer
over an event sequence. -/
def runBaseline : BaselineState → List RawEvent → BaselineState × List NormalizedEntry × Nat
  | b, [] => (b, [], 0)
  | b, e :: es =>
    let o := baselineStep b e
    let r := runBaseline o.1 es
    (r.1, o.2.1 ++ r.2.1, o.2.2 + r.2.2)

theorem resolveActor_mainId (s : ClassifierState) (aid : Option String) :
    (resolveActor s aid).2.1.mainId = s.mainId := by
  unfold resolveActor
  cases lookupReg s.registry (resolveId s aid).1 <;> rfl

theorem resolveActor_stack (s : ClassifierState) (aid : Option String) :
    (resolveActor s aid).2.1.stack = s.stack := by
  unfold resolveActor
  cases lookupReg s.registry (resolveId s aid).1 <;> rfl

theorem resolveActor_counter (s : ClassifierState) (aid : Option String) :
    (resolveActor s aid).2.1.counter = s.counter := by
  unfold resolveActor
  cases lookupReg s.registry (resolveId s aid).1 <;> rfl

theorem endStep_entries (s : ClassifierState) (id : String) :
    (endStep s id).entries = [] := by
  unfold endStep
  split
  · split <;> rfl
  · rfl

theorem endStep_counter (s : ClassifierState) (id : String) :
    (endStep s id).state.counter = s.counter := by
  unfold endStep
  split
  · split <;> rfl
  · rfl

theorem classify_seq (cfg : Bool) (s : ClassifierState) (e : RawEvent) :
    (classifyEvent cfg s e).entries.map (fun en => en.sequence)
      = List.range' s.counter (classifyEvent cfg s e).entries.length
    ∧ (classifyEvent cfg s e).state.counter
      = s.counter + (classifyEvent cfg s e).entries.length := by
  cases e <;> cases cfg <;>
    simp [classifyEvent, spawnStep, emitMessage, endStep_entries, endStep_counter,
      resolveActor_counter, List.range']

theorem run_seq (cfg : Bool) :
    ∀ (es : List RawEvent) (s : ClassifierState),
    (runClassifier cfg s es).entries.map (fun en => en.sequence)
      = List.range' s.counter (runClassifier cfg s es).entries.length
    ∧ (runClassifier cfg s es).state.counter
      = s.counter + (runClassifier cfg s es).entries.length
  | [], s => by simp [runClassifier]
  | e :: es, s => by
    have hstep := classify_seq cfg s e
    have hrec := run_seq cfg es (classifyEvent cfg s e).state
    simp only [runClassifier, List.map_append, List.length_append]
    refine ⟨?_, ?_⟩
    · rw [hstep.1, hrec.1, hstep.2]
      have happ := List.range'_append s.counter
        (classifyEvent cfg s e).entries.length
        (runClassifier cfg (classifyEvent cfg s e).state es).entries.length 1
      simp only [Nat.one_mul] at happ
      rw [happ, Nat.add_comm]
    · rw [hrec.2, hstep.2, Nat.add_assoc]

/-- C2: for every input event sequence processed by the Event Classifier
(under either configuration), the sequence values of the emitted
normalized entries are exactly 0, 1, 2, ... in the order the entries were
produced relative to input arrival order — in particular they are
strictly increasing. -/
theorem c2_sequence_strictly_increasing (cfg : Bool) (m : String) (es : List RawEvent) :
    (runClassifier cfg (initState m) es).entries.map (fun en => en.sequence)
      = List.range (runClassifier cfg (initState m) es).entries.length
    ∧ List.Pairwise (fun a b => a < b)
        ((runClassifier cfg (initState m) es).entries.map (fun en => en.sequence)) := by
  have h := run_seq cfg es (initState m)
  have h0 : (initState m).counter = 0 := rfl
  rw [h0] at h
  refine ⟨by rw [h.1, List.range_eq_range'], ?_⟩
  rw [h.1, ← List.range_eq_range']
  exact List.pairwise_lt_range _

theorem c1_aux (es : List RawEvent) :
    ∀ (s : ClassifierState) (b : BaselineState),
    s.counter = b.counter → (∀ e ∈ es, isCollabEvent e = false) →
    (runClassifier false s es).entries = (runBaseline b es).2.1 := by
  induction es with
  | nil => intro s b _ _; rfl
  | cons e es ih =>
    intro s b hc hnc
    have hne : isCollabEvent e = false := hnc e (List.mem_cons_self e es)
    have hrest : ∀ x ∈ es, isCollabEvent x = false :=
      fun x hx => hnc x (List.mem_cons_of_mem e hx)
    cases e with
    | malformed r =>
      simpa [runClassifier, runBaseline, classifyEvent, baselineStep, payload?]
        using ih s b hc hrest
    | agentMessage a c =>
      simp only [runClassifier, runBaseline, classifyEvent, baselineStep, payload?,
        emitMessage, if_neg (Bool.false_ne_true)]
      rw [hc]
      simpa using ih _ _ (by simp [hc]) hrest
    | agentReasoning a c =>
      simp only [runClassifier, runBaseline, classifyEvent, baselineStep, payload?,
        emitMessage, if_neg (Bool.false_ne_true)]
      rw [hc]
      simpa using ih _ _ (by simp [hc]) hrest
    | toolCall a c =>
      simp only [runClassifier, runBaseline, classifyEvent, baselineStep, payload?,
        emitMessage, if_neg (Bool.false_ne_true)]
      rw [hc]
      simpa using ih _ _ (by simp [hc]) hrest
    | spawnBegin id name role => simp [isCollabEvent] at hne
    | spawnEnd id name role => simp [isCollabEvent] at hne
    | interactionBegin id => simp [isCollabEvent] at hne
    | interactionEnd id => simp [isCollabEvent] at hne

/-- C1: for every event sequence containing no collab-specific events,
running the normalizer with multi-agent configuration disabled produces an
entry stream identical to the output of the baseline normalizer with
collab support entirely absent on the same events. -/
theorem c1_disabled_matches_baseline (m : String) (es : List RawEvent)
    (h : ∀ e ∈ es, isCollabEvent e = false) :
    (runClassifier false (initState m) es).entries
      = (runBaseline { counter := 0 } es).2.1 :=
  c1_aux es (initState m) { counter := 0 } rfl h

/-- Witness for C1 at a concrete non-collab event sequence. -/
theorem c1_disabled_matches_baseline_witness :
    (runClassifier false (initState "main")
        [RawEvent.agentMessage none "hi", RawEvent.malformed "junk",
         RawEvent.agentReasoning (some "a1") "think", RawEvent.toolCall none "ls"]).entries
      = (runBaseline { counter := 0 }
        [RawEvent.agentMessage none "hi", RawEvent.malformed "junk",
         RawEvent.agentReasoning (some "a1") "think", RawEvent.toolCall none "ls"]).2.1 :=
  c1_disabled_matches_baseline "main"
    [RawEvent.agentMessage none "hi", RawEvent.malformed "junk",
     RawEvent.agentReasoning (some "a1") "think", RawEvent.toolCall none "ls"]
    (by decide)

/-- Modelled from the spec: the Event Classifier's dispatch as a relation
between a state, one arriving raw event and the classification outcome,
one constructor per row of the dispatch table of spec section 4.4 under
each configuration. -/
inductive StepR : Bool → ClassifierState → RawEvent → StepOut → Prop
  | malformedDrop {cfg : Bool} {s : ClassifierState} {r : String} :
      StepR cfg s (.malformed r) { state := s, entries := [], errors := 1, warnings := 0 }
  | spawnBeginOn {s : ClassifierState} {id : String} {name role : Option String} :
      StepR true s (.spawnBegin id name role) (spawnStep s id name role "started")
  | spawnBeginOff {s : ClassifierState} {id : String} {name role : Option String} :
      StepR false s (.spawnBegin id name role) { state := s, entries := [], errors := 0, warnings := 0 }
  | spawnEndOn {s : ClassifierState} {id : String} {name role : Option String} :
      StepR true s (.spawnEnd id name role) (spawnStep s id name role "finished")
  | spawnEndOff {s : ClassifierState} {id : String} {name role : Option String} :
      StepR false s (.spawnEnd id name role) { state := s, entries := [], errors := 0, warnings := 0 }
  | interactionBeginOn {s : ClassifierState} {id : String} :
      StepR true s (.interactionBegin id)
        { state := { s with stack := id :: s.stack }, entries := [], errors := 0, warnings := 0 }
  | interactionBeginOff {s : ClassifierState} {id : String} :
      StepR false s (.interactionBegin id) { state := s, entries := [], errors := 0, warnings := 0 }
  | interactionEndOn {s : ClassifierState} {id : String} :
      StepR true s (.interactionEnd id) (endStep s id)
  | interactionEndOff {s : ClassifierState} {id : String} :
      StepR false s (.interactionEnd id) { state := s, entries := [], errors := 0, warnings := 0 }
  | message {cfg : Bool} {s : ClassifierState} {a : Option String} {c : String} :
      StepR cfg s (.agentMessage a c) (emitMessage cfg s .assistantMessage a c)
  | reasoning {cfg : Bool} {s : ClassifierState} {a : Option String} {c : String} :
      StepR cfg s (.agentReasoning a c) (emitMessage cfg s .reasoning a c)
  | tool {cfg : Bool} {s : ClassifierState} {a : Option String} {c : String} :
      StepR cfg s (.toolCall a c) (emitMessage cfg s .toolCall a c)

/-- Modelled from the spec: a run of the Event Classifier over an
arrival-ordered event sequence as a relation, relating the initial state
and the events to the emitted entry stream. -/
inductive RunR (cfg : Bool) : ClassifierState → List RawEvent → List NormalizedEntry → Prop
  | nil {s : ClassifierState} : RunR cfg s [] []
  | cons {s : ClassifierState} {e : RawEvent} {o : StepOut} {es : List RawEvent}
      {ents : List NormalizedEntry} :
      StepR cfg s e o → RunR cfg o.state es ents → RunR cfg s (e :: es) (o.entries ++ ents)

theorem stepR_eq {cfg : Bool} {s : ClassifierState} {e : RawEvent} {o : StepOut}
    (h : StepR cfg s e o) : o = classifyEvent cfg s e := by
  cases h <;> simp [classifyEvent]

theorem stepR_total (cfg : Bool) (s : ClassifierState) (e : RawEvent) :
    StepR cfg s e (classifyEvent cfg s e) := by
  cases e <;> cases cfg <;>
    first
    | exact (by simpa [classifyEvent] using StepR.malformedDrop)
    | exact (by simpa [classifyEvent] using StepR.spawnBeginOn)
    | exact (by simpa [classifyEvent] using StepR.spawnBeginOff)
    | exact (by simpa [classifyEvent] using StepR.spawnEndOn)
    | exact (by simpa [classifyEvent] using StepR.spawnEndOff)
    | exact (by simpa [classifyEvent] using StepR.interactionBeginOn)
    | exact (by simpa [classifyEvent] using StepR.interactionBeginOff)
    | exact (by simpa [classifyEvent] using StepR.interactionEndOn)
    | exact (by simpa [classifyEvent] using StepR.interactionEndOff)
    | exact (by simpa [classifyEvent] using StepR.message)
    | exact (by simpa [classifyEvent] using StepR.reasoning)
    | exact (by simpa [classifyEvent] using StepR.tool)

theorem runR_entries {cfg : Bool} {s : ClassifierState} {es : List RawEvent}
    {ents : List NormalizedEntry} (h : RunR cfg s es ents) :
    ents = (runClassifier cfg s es).entries := by
  induction h with
  | nil => rfl
  | cons hstep _ ih =>
    rw [stepR_eq hstep] at ih ⊢
    simp only [runClassifier]
    rw [ih]

theorem runR_total (cfg : Bool) : ∀ (es : List RawEvent) (s : ClassifierState),
    RunR cfg s es (runClassifier cfg s es).entries
  | [], _ => RunR.nil
  | e :: es, s => by
    have h := RunR.cons (stepR_total cfg s e) (runR_total cfg es (classifyEvent cfg s e).state)
    simpa [runClassifier] using h

/-- C3: processing is deterministic — any two runs of the classifier
relation on the same input event sequence from a fresh classifier instance
produce identical output entry sequences. -/
theorem c3_deterministic_replay (cfg : Bool) (m : String) (es : List RawEvent)
    (ents₁ ents₂ : List NormalizedEntry)
    (h₁ : RunR cfg (initState m) es ents₁) (h₂ : RunR cfg (initState m) es ents₂) :
    ents₁ = ents₂ :=
  (runR_entries h₁).trans (runR_entries h₂).symm

/-- Witness for C3: a manually derived run and the computed run of a
concrete event sequence from a fresh instance emit the same entries. -/
theorem c3_deterministic_replay_witness :
    (emitMessage true (initState "main") EntryType.assistantMessage none "hi").entries ++ []
      = (runClassifier true (initState "main") [RawEvent.agentMessage none "hi"]).entries :=
  c3_deterministic_replay true "main" [RawEvent.agentMessage none "hi"]
    ((emitMessage true (initState "main") EntryType.assistantMessage none "hi").entries ++ [])
    (runClassifier true (initState "main") [RawEvent.agentMessage none "hi"]).entries
    (RunR.cons StepR.message RunR.nil)
    (runR_total true [RawEvent.agentMessage none "hi"] (initState "main"))

theorem countReg_eq_zero_of_none (reg : List ActorInfo) (id : String)
    (h : lookupReg reg id = none) : countReg reg id = 0 := by
  induction reg with
  | nil => rfl
  | cons a rest ih =>
    by_cases hid : a.id == id
    · simp only [lookupReg, List.find?] at h
      rw [hid] at h
      simp at h
    · simp only [lookupReg, List.find?] at h
      rw [Bool.of_not_eq_true hid] at h
      simpa [countReg, List.filter, Bool.of_not_eq_true hid] using ih h

/-- C4: an AgentMessage carrying an explicit, registered actor id wins
over the Active-Actor Tracker: with registered id y on the event and some
x at the top of the tracker stack, x distinct from y, the emitted entry is
attributed to the registered record for y and not to x. -/
theorem c4_explicit_id_precedence (s : ClassifierState) (x y c : String) (info : ActorInfo)
    (hreg : lookupReg s.registry y = some info)
    (_htop : s.stack.head? = some x) (hne : x ≠ y) :
    (classifyEvent true s (.agentMessage (some y) c)).entries
      = [{ entryType := .assistantMessage, sequence := s.counter, content := c,
           actor := some info }]
    ∧ info.id = y ∧ info.id ≠ x := by
  have hid : info.id = y := by
    have hfind := List.find?_some (by simpa [lookupReg] using hreg)
    simpa using hfind
  refine ⟨?_, hid, fun hcon => hne (hcon ▸ hid ▸ rfl)⟩
  simp [classifyEvent, emitMessage, resolveActor, resolveId, hreg]

/-- Witness for C4 at a concrete state whose tracker top is alice while
the message carries the registered id bob. -/
theorem c4_explicit_id_precedence_witness :
    (classifyEvent true
      { mainId := "main"
        registry := [{ id := "main", name := none, role := none, kind := ActorKind.main },
                     { id := "bob", name := some "Bob", role := none, kind := ActorKind.collab }]
        stack := ["alice", "main"]
        counter := 5 }
      (RawEvent.agentMessage (some "bob") "hello")).entries
      = [{ entryType := EntryType.assistantMessage, sequence := 5, content := "hello",
           actor := some { id := "bob", name := some "Bob", role := none,
                           kind := ActorKind.collab } }] :=
  (c4_explicit_id_precedence
    { mainId := "main"
      registry := [{ id := "main", name := none, role := none, kind := ActorKind.main },
                   { id := "bob", name := some "Bob", role := none, kind := ActorKind.collab }]
      stack := ["alice", "main"]
      counter := 5 }
    "alice" "bob" "hello"
    { id := "bob", name := some "Bob", role := none, kind := ActorKind.collab }
    (by decide) (by decide) (by decide)).1

/-- C5: an AgentMessage referencing an unregistered actor id z synthesizes
and registers a placeholder record with that id and kind collab instead of
failing, attributes the emitted entry to it, and a subsequent SpawnEnd for
z merges into that same record without creating a second registry entry
for z. -/
theorem c5_placeholder_fallback (s : ClassifierState) (z c : String) (name role : Option String)
    (hz : lookupReg s.registry z = none) :
    lookupReg (classifyEvent true s (.agentMessage (some z) c)).state.registry z
      = some (placeholder z)
    ∧ countReg (classifyEvent true s (.agentMessage (some z) c)).state.registry z = 1
    ∧ (classifyEvent true s (.agentMessage (some z) c)).entries
        = [{ entryType := .assistantMessage, sequence := s.counter, content := c,
             actor := some (placeholder z) }]
    ∧ countReg (classifyEvent true (classifyEvent true s (.agentMessage (some z) c)).state
        (.spawnEnd z name role)).state.registry z = 1
    ∧ lookupReg (classifyEvent true (classifyEvent true s (.agentMessage (some z) c)).state
        (.spawnEnd z name role)).state.registry z
        = some { id := z, name := name, role := role, kind := .collab } := by
  have hstate : (classifyEvent true s (.agentMessage (some z) c)).state.registry
      = register s.registry (placeholder z) := by
    simp [classifyEvent, emitMessage, resolveActor, resolveId, hz]
  have hentries : (classifyEvent true s (.agentMessage (some z) c)).entries
      = [{ entryType := .assistantMessage, sequence := s.counter, content := c,
           actor := some (placeholder z) }] := by
    simp [classifyEvent, emitMessage, resolveActor, resolveId, hz]
  have hz0 : lookupReg s.registry (placeholder z).id = none := hz
  have h1look : lookupReg (register s.registry (placeholder z)) z = some (placeholder z) :=
    lookupReg_register_none s.registry (placeholder z) hz0
  have h1count : countReg (register s.registry (placeholder z)) z = 1 := by
    have hstep : countReg (register s.registry (placeholder z)) z
        = countReg s.registry z + 1 := countReg_register_none s.registry (placeholder z) hz0
    rw [hstep, countReg_eq_zero_of_none s.registry z hz]
  have hspawn : (classifyEvent true (classifyEvent true s (.agentMessage (some z) c)).state
      (.spawnEnd z name role)).state.registry
      = register (classifyEvent true s (.agentMessage (some z) c)).state.registry
          { id := z, name := name, role := role, kind := .collab } := by
    simp [classifyEvent, spawnStep]
  have hstate2 : (classifyEvent true (classifyEvent true s (.agentMessage (some z) c)).state
      (.spawnEnd z name role)).state.registry
      = register (register s.registry (placeholder z))
          { id := z, name := name, role := role, kind := .collab } := by
    rw [hspawn, hstate]
  have hinfo : ({ id := z, name := name, role := role, kind := .collab } : ActorInfo).id = z := rfl
  have h2look : lookupReg (register (register s.registry (placeholder z))
      { id := z, name := name, role := role, kind := .collab }) z
      = some { id := z, name := name, role := role, kind := .collab } := by
    have := lookupReg_register_found (register s.registry (placeholder z))
      { id := z, name := name, role := role, kind := .collab } (placeholder z) h1look
    simpa [mergeInfo, placeholder, mergeField_none_left] using this
  have h2count : countReg (register (register s.registry (placeholder z))
      { id := z, name := name, role := role, kind := .collab }) z = 1 := by
    have := countReg_register_found (register s.registry (placeholder z))
      { id := z, name := name, role := role, kind := .collab } (placeholder z) h1look
    rw [h1count] at this
    exact this
  exact ⟨hstate ▸ h1look, hstate ▸ h1count, hentries,
    hstate2 ▸ h2count, hstate2 ▸ h2look⟩

/-- Witness for C5: from a fresh session, a message referencing the
unregistered id zeta followed by its SpawnEnd leaves exactly one merged
registry record for zeta. -/
theorem c5_placeholder_fallback_witness :
    lookupReg (classifyEvent true
        (classifyEvent true (initState "main") (.agentMessage (some "zeta") "m")).state
        (.spawnEnd "zeta" (some "Zeta") none)).state.registry "zeta"
      = some { id := "zeta", name := some "Zeta", role := none, kind := .collab } :=
  (c5_placeholder_fallback (initState "main") "zeta" "m" (some "Zeta") none
    (by decide)).2.2.2.2

theorem resolveActor_id (s : ClassifierState) (aid : Option String) :
    (resolveActor s aid).1.id = (resolveId s aid).1 := by
  unfold resolveActor
  cases h : lookupReg s.registry (resolveId s aid).1 with
  | none => rfl
  | some info =>
    have h2 : List.find? (fun a => a.id == (resolveId s aid).1) s.registry = some info := by
      simpa [lookupReg] using h
    have h3 : (info.id == (resolveId s aid).1) = true :=
      @List.find?_some ActorInfo (fun a => a.id == (resolveId s aid).1) info s.registry h2
    simpa using eq_of_beq h3

theorem classify_stack_floor (cfg : Bool) (s : ClassifierState) (e : RawEvent) (m : String)
    (hne : s.stack ≠ []) (hlast : s.stack.getLast? = some m) :
    (classifyEvent cfg s e).state.stack ≠ []
    ∧ (classifyEvent cfg s e).state.stack.getLast? = some m := by
  cases e with
  | malformed r => exact ⟨hne, hlast⟩
  | spawnBegin id name role =>
    cases cfg <;> simp [classifyEvent, spawnStep] <;> exact ⟨hne, hlast⟩
  | spawnEnd id name role =>
    cases cfg <;> simp [classifyEvent, spawnStep] <;> exact ⟨hne, hlast⟩
  | interactionBegin id =>
    cases cfg with
    | false => exact ⟨hne, hlast⟩
    | true =>
      simp only [classifyEvent, if_true]
      cases hs : s.stack with
      | nil => exact absurd hs hne
      | cons a l =>
        refine ⟨by simp, ?_⟩
        rw [hs] at hlast
        simpa [List.getLast?_cons_cons] using hlast
  | interactionEnd id =>
    cases cfg with
    | false => exact ⟨hne, hlast⟩
    | true =>
      simp only [classifyEvent, if_true]
      unfold endStep
      cases hs : s.stack with
      | nil => exact ⟨hne, hlast⟩
      | cons t l =>
        cases l with
        | nil => exact ⟨hne, hlast⟩
        | cons r rest =>
          by_cases hid : t = id
          · rw [hs] at hlast
            simp only [hid, if_true]
            exact ⟨by simp, by simpa [List.getLast?_cons_cons] using hlast⟩
          · simp only [hid, if_false]
            exact ⟨hne, hlast⟩
  | agentMessage a c =>
    cases cfg <;> simp [classifyEvent, emitMessage, resolveActor_stack] <;> exact ⟨hne, hlast⟩
  | agentReasoning a c =>
    cases cfg <;> simp [classifyEvent, emitMessage, resolveActor_stack] <;> exact ⟨hne, hlast⟩
  | toolCall a c =>
    cases cfg <;> simp [classifyEvent, emitMessage, resolveActor_stack] <;> exact ⟨hne, hlast⟩

theorem run_stack_floor (cfg : Bool) (m : String) :
    ∀ (es : List RawEvent) (s : ClassifierState), s.stack ≠ [] →
    s.stack.getLast? = some m →
    (runClassifier cfg s es).state.stack ≠ []
    ∧ (runClassifier cfg s es).state.stack.getLast? = some m
  | [], s => fun hne hlast => ⟨hne, hlast⟩
  | e :: es, s => fun hne hlast => by
    have hstep := classify_stack_floor cfg s e m hne hlast
    have hrec := run_stack_floor cfg m es (classifyEvent cfg s e).state hstep.1 hstep.2
    simpa [runClassifier] using hrec

/-- C6 counterexample: from the initial state, after InteractionBegin of
actor x, an InteractionEnd of the unrelated id y is unmatched and pops
nothing, yet attribution immediately afterward resolves to x, not to the
main actor — refuting the final conjunct of the claim as stated. -/
theorem c6_stack_floor_counterexample :
    (runClassifier true (initState "main") [RawEvent.interactionBegin "x"]).state.stack.head?
      = some "x"
    ∧ ("y" : String) ≠ "x"
    ∧ (classifyEvent true
        (runClassifier true (initState "main") [RawEvent.interactionBegin "x"]).state
        (RawEvent.interactionEnd "y")).state
      = (runClassifier true (initState "main") [RawEvent.interactionBegin "x"]).state
    ∧ (resolveActor (classifyEvent true
        (runClassifier true (initState "main") [RawEvent.interactionBegin "x"]).state
        (RawEvent.interactionEnd "y")).state none).1.id ≠ "main" := by
  decide

/-- C6 amended: for every sequence of InteractionBegin and InteractionEnd
transitions from the initial state, an InteractionEnd whose id does not
match the top of the stack pops nothing (only a warning is recorded), the
main actor is never removed from the bottom of the stack, and attribution
immediately after the unmatched InteractionEnd resolves to the same actor
as immediately before it — in particular, when no interaction is open
(the stack holds only the main actor) it still resolves to the main
actor. -/
theorem c6_stack_floor_amended (m id t : String) (es : List RawEvent)
    (_hes : ∀ e ∈ es, isInteractionEvent e = true)
    (htop : (runClassifier true (initState m) es).state.stack.head? = some t)
    (hne : t ≠ id) :
    (runClassifier true (initState m) es).state.stack ≠ []
    ∧ (runClassifier true (initState m) es).state.stack.getLast? = some m
    ∧ classifyEvent true (runClassifier true (initState m) es).state (.interactionEnd id)
        = { state := (runClassifier true (initState m) es).state
            entries := [], errors := 0, warnings := 1 }
    ∧ (resolveActor (classifyEvent true (runClassifier true (initState m) es).state
        (.interactionEnd id)).state none).1.id = t
    ∧ ((runClassifier true (initState m) es).state.stack = [m] →
        (resolveActor (classifyEvent true (runClassifier true (initState m) es).state
          (.interactionEnd id)).state none).1.id = m) := by
  have hfloor := run_stack_floor true m es (initState m) (by simp [initState]) rfl
  have hid : classifyEvent true (runClassifier true (initState m) es).state (.interactionEnd id)
      = { state := (runClassifier true (initState m) es).state
          entries := [], errors := 0, warnings := 1 } := by
    simp only [classifyEvent, if_true]
    unfold endStep
    cases hs : (runClassifier true (initState m) es).state.stack with
    | nil => rfl
    | cons a l =>
      have hat : a = t := by
        rw [hs] at htop
        simpa using htop
      cases l with
      | nil => rfl
      | cons r rest =>
        have hna : ¬ (a = id) := by rw [hat]; exact hne
        simp [hna]
  have hattr : (resolveActor (classifyEvent true (runClassifier true (initState m) es).state
      (.interactionEnd id)).state none).1.id = t := by
    rw [hid]
    rw [resolveActor_id]
    cases hs : (runClassifier true (initState m) es).state.stack with
    | nil => rw [hs] at htop; simp at htop
    | cons a l =>
      rw [hs] at htop
      have hat : a = t := by simpa using htop
      simp [resolveId, hs, hat]
  refine ⟨hfloor.1, hfloor.2, hid, hattr, fun hstack => ?_⟩
  have : t = m := by
    rw [hstack] at htop
    simpa using htop.symm
  rw [hattr, this]

/-- Witness for the amended C6 at the fresh session state, where an
unmatched InteractionEnd leaves attribution on the main actor. -/
theorem c6_stack_floor_amended_witness :
    (resolveActor (classifyEvent true
      (runClassifier true (initState "main") []).state
      (RawEvent.interactionEnd "y")).state none).1.id = "main" :=
  (c6_stack_floor_amended "main" "y" "main" [] (by decide) (by decide) (by decide)).2.2.2.2 (by decide)

/-- C7: registry registration merges field-wise — a later non-null field
value overwrites an earlier null one, a later null value never overwrites
an earlier non-null one — and no sequence of registry operations (register
is the only mutator) ever removes an entry. -/
theorem c7_register_merge_no_removal :
    (∀ (reg : List ActorInfo) (info old : ActorInfo),
      lookupReg reg info.id = some old →
      ∃ merged, lookupReg (register reg info) info.id = some merged
        ∧ (old.name = none → merged.name = info.name)
        ∧ (old.role = none → merged.role = info.role)
        ∧ (∀ v, old.name = some v → info.name = none → merged.name = some v)
        ∧ (∀ v, old.role = some v → info.role = none → merged.role = some v))
    ∧ (∀ (reg : List ActorInfo) (infos : List ActorInfo) (j : String),
        (lookupReg reg j).isSome → (lookupReg (infos.foldl register reg) j).isSome) := by
  constructor
  · intro reg info old h
    refine ⟨mergeInfo old info, lookupReg_register_found reg info old h, ?_, ?_, ?_, ?_⟩
    · intro hn
      simp only [mergeInfo]
      rw [hn, mergeField_none_left]
    · intro hr
      simp only [mergeInfo]
      rw [hr, mergeField_none_left]
    · intro v hv hn
      simp [mergeInfo, mergeField, hv, hn]
    · intro v hv hr
      simp [mergeInfo, mergeField, hv, hr]
  · intro reg infos j h
    induction infos generalizing reg with
    | nil => exact h
    | cons i rest ih => exact ih _ (lookupReg_register_mono reg i j h)

/-- Witness for C7: merging a spawn-end record into an existing placeholder
keeps the earlier non-null name and fills the earlier null role. -/
theorem c7_register_merge_no_removal_witness :
    ∃ merged,
      lookupReg (register [{ id := "a", name := some "N", role := none, kind := ActorKind.collab }]
          { id := "a", name := none, role := some "R", kind := ActorKind.collab }) "a"
        = some merged
      ∧ merged.name = some "N" ∧ merged.role = some "R" := by
  obtain ⟨merged, hl, _, hrole, hname, _⟩ :=
    c7_register_merge_no_removal.1
      [{ id := "a", name := some "N", role := none, kind := ActorKind.collab }]
      { id := "a", name := none, role := some "R", kind := ActorKind.collab }
      { id := "a", name := some "N", role := none, kind := ActorKind.collab }
      (by decide)
  exact ⟨merged, hl, hname "N" rfl rfl, hrole rfl⟩

theorem runClassifier_append (cfg : Bool) :
    ∀ (as bs : List RawEvent) (s : ClassifierState),
    (runClassifier cfg s (as ++ bs)).state
      = (runClassifier cfg (runClassifier cfg s as).state bs).state
    ∧ (runClassifier cfg s (as ++ bs)).entries
      = (runClassifier cfg s as).entries
        ++ (runClassifier cfg (runClassifier cfg s as).state bs).entries
    ∧ (runClassifier cfg s (as ++ bs)).errors
      = (runClassifier cfg s as).errors
        + (runClassifier cfg (runClassifier cfg s as).state bs).errors
  | [], bs, s => by simp [runClassifier]
  | a :: as, bs, s => by
    have ih := runClassifier_append cfg as bs (classifyEvent cfg s a).state
    simp only [List.cons_append, runClassifier, List.append_eq]
    exact ⟨ih.1, by rw [ih.2.1, List.append_assoc], by rw [ih.2.2, Nat.add_assoc]⟩

/-- C8: a malformed event anywhere in the input is dropped with an error
counter increment and does not disturb anything else: the classifier
produces exactly the entries it would produce for the sequence with the
malformed event removed, and one more counted error — processing never
aborts. -/
theorem c8_malformed_event_dropped (cfg : Bool) (m r : String) (pre post : List RawEvent) :
    (runClassifier cfg (initState m) (pre ++ RawEvent.malformed r :: post)).entries
      = (runClassifier cfg (initState m) (pre ++ post)).entries
    ∧ (runClassifier cfg (initState m) (pre ++ RawEvent.malformed r :: post)).errors
      = (runClassifier cfg (initState m) (pre ++ post)).errors + 1 := by
  have h1 := runClassifier_append cfg pre (RawEvent.malformed r :: post) (initState m)
  have h2 := runClassifier_append cfg pre post (initState m)
  have hmidE : (runClassifier cfg (runClassifier cfg (initState m) pre).state
      (RawEvent.malformed r :: post)).entries
      = (runClassifier cfg (runClassifier cfg (initState m) pre).state post).entries := by
    simp [runClassifier, classifyEvent]
  have hmidR : (runClassifier cfg (runClassifier cfg (initState m) pre).state
      (RawEvent.malformed r :: post)).errors
      = 1 + (runClassifier cfg (runClassifier cfg (initState m) pre).state post).errors := by
    simp [runClassifier, classifyEvent]
  constructor
  · rw [h1.2.1, hmidE, h2.2.1]
  · rw [h1.2.2, hmidR, h2.2.2]
    omega

end VibeKanban

namespace ChatActorBadge

/-- The ActorInfo type exported by ChatActorBadge.tsx: a required string
id and optional, possibly null, name, role and kind strings — the kind is
an open string, not a closed variant. -/
structure ActorInfo where
  id : String
  name : Option String
  role : Option String
  kind : Option String
deriving DecidableEq, Repr

/-- Character-wise model of the JavaScript String.prototype.toUpperCase
call applied to the kind string. -/
def toUpperCase (s : String) : String :=
  ⟨s.data.map Char.toUpper⟩

/-- The label computed by ChatActorBadge: actor.name, or else actor.role,
or else actor.id, with null and absent treated alike (the nullish
coalescing operator). -/
def label (actor : ActorInfo) : String :=
  (actor.name.getD (actor.role.getD actor.id))

/-- The kind text computed by ChatActorBadge: the upper-cased kind when
one is present, the generic fallback AGENT otherwise. -/
def kindLabel (actor : ActorInfo) : String :=
  (actor.kind.map toUpperCase).getD "AGENT"

/-- C9 counterexample: an actor with an absent kind is displayed by
ChatActorBadge with the generic fallback AGENT, and an actor with an
unknown future kind is displayed with that kind upper-cased verbatim —
in neither case is the kind treated as the collab kind, refuting the
claim that unknown or absent kinds map to collab. -/
theorem c9_kind_fallback_counterexample :
    kindLabel { id := "a1", name := none, role := none, kind := none } = "AGENT"
    ∧ kindLabel { id := "a1", name := none, role := none, kind := none } ≠ "COLLAB"
    ∧ kindLabel { id := "a2", name := none, role := none, kind := some "orchestrator" }
        = "ORCHESTRATOR"
    ∧ kindLabel { id := "a2", name := none, role := none, kind := some "orchestrator" }
        ≠ "COLLAB" := by
  decide

/-- C9 amended: ChatActorBadge is total over every kind value and never
fails: an absent or null kind is rendered with the generic fallback label
AGENT, and any present kind string — known, unknown or future — is
rendered as its upper-cased form verbatim; kinds are open strings, not a
closed main/collab variant set. -/
theorem c9_kind_open_fallback (a : ActorInfo) :
    (a.kind = none → kindLabel a = "AGENT")
    ∧ (∀ k, a.kind = some k → kindLabel a = toUpperCase k) := by
  refine ⟨fun h => ?_, fun k h => ?_⟩ <;> simp [kindLabel, h]

/-- Witness for the amended C9 at concrete actors with an absent and with
an unregistered future kind. -/
theorem c9_kind_open_fallback_witness :
    kindLabel { id := "w", name := none, role := none, kind := none } = "AGENT"
    ∧ kindLabel { id := "w", name := none, role := none, kind := some "main" } = "MAIN" :=
  ⟨(c9_kind_open_fallback { id := "w", name := none, role := none, kind := none }).1 rfl,
   (c9_kind_open_fallback { id := "w", name := none, role := none, kind := some "main" }).2
     "main" rfl⟩

/-- C10: the label displayed by ChatActorBadge is the actor's name when
the name is non-null, otherwise the role when the role is non-null,
otherwise the id; the component is total over all combinations of null or
absent optional fields, so the label always comes from one of the actor's
own fields. -/
theorem c10_label_priority (a : ActorInfo) :
    (∀ n, a.name = some n → label a = n)
    ∧ (a.name = none → ∀ r, a.role = some r → label a = r)
    ∧ (a.name = none → a.role = none → label a = a.id) := by
  refine ⟨fun n h => ?_, fun h r hr => ?_, fun h hr => ?_⟩ <;> simp [label, h] <;> simp [hr]

/-- Witness for C10 covering all three fallback layers at concrete
actors. -/
theorem c10_label_priority_witness :
    label { id := "i", name := some "N", role := some "R", kind := none } = "N"
    ∧ label { id := "i", name := none, role := some "R", kind := none } = "R"
    ∧ label { id := "i", name := none, role := none, kind := none } = "i" :=
  ⟨(c10_label_priority { id := "i", name := some "N", role := some "R", kind := none }).1
      "N" rfl,
   (c10_label_priority { id := "i", name := none, role := some "R", kind := none }).2.1
      rfl "R" rfl,
   (c10_label_priority { id := "i", name := none, role := none, kind := none }).2.2
      rfl rfl⟩

end ChatActorBadge
